import Mathlib

/-
Verification development for the URI IRB assistant pipeline.

The embedding covers, in order:
  * doc_parser.py          — extract_text_from_docx, extract_text_from_pdf
  * query_vector_store.py  — query_appendix_b
  * app.py                 — the interactive front end (retrieval, context
                             assembly, answer generation)
  * populate_vector_store.py — the ingestion entry point main

External effects (filesystem, document parsing library, chromadb store,
chat-completion endpoint) are modelled as explicit outcome parameters, so
every Python function becomes a total Lean function over those outcomes.
Python exceptions that a function raises are modelled with Except; Python
exceptions that a function catches internally are modelled by the outcome
constructors they would produce.
-/

/-- Exception kinds raised by the extractors in doc_parser.py. -/
inductive PyError
  | fileNotFound
  | valueError
  | runtimeError
deriving DecidableEq

/-- A parsed .docx document: its paragraph texts, in document order
(doc.paragraphs in the source). -/
structure DocxDoc where
  paragraphs : List String
deriving DecidableEq

/-- A parsed .pdf document: the text PyPDF2 extracts from each page, in page
order; a page with no extractable text yields the empty string. -/
structure PdfDoc where
  pages : List String
deriving DecidableEq

/-- Outcome of opening a document container with the parsing library:
a parsed document, a corrupt-container error (zipfile.BadZipFile for docx,
PdfReadError for pdf), or any other library fault. -/
inductive OpenOutcome (α : Type)
  | ok (doc : α)
  | badFormat
  | otherError
deriving DecidableEq

/-- The filesystem and parsing environment seen by doc_parser.py:
os.path.isfile, and the outcome of handing a path to python-docx / PyPDF2. -/
structure FileSystem where
  isFile : String → Bool
  docxOpen : String → OpenOutcome DocxDoc
  pdfOpen : String → OpenOutcome PdfDoc

/-- Models Python str.lower for the ASCII paths used here. -/
def pyLower (s : String) : String :=
  String.mk (s.toList.map Char.toLower)

/-- Models Python str.endswith: exact suffix match. -/
def pyEndsWith (s suffix : String) : Bool :=
  List.isSuffixOf suffix.toList s.toList

/-- The characters Python str.strip removes (ASCII whitespace). -/
def isPySpace (c : Char) : Bool :=
  c == ' ' || c == '\t' || c == '\n' || c == '\r' || c == '\x0b' || c == '\x0c'

/-- Models Python str.strip: drop leading and trailing whitespace. -/
def pyStrip (s : String) : String :=
  String.mk (((s.toList.dropWhile isPySpace).reverse.dropWhile isPySpace).reverse)

/-- doc_parser.extract_text_from_docx: existence check, then extension check
on the lowercased path, then open; on success the paragraph texts joined by
single newlines. -/
def extract_text_from_docx (fs : FileSystem) (file_path : String) :
    Except PyError String :=
  if !(fs.isFile file_path) then .error .fileNotFound
  else if !(pyEndsWith (pyLower file_path) ".docx") then .error .valueError
  else
    match fs.docxOpen file_path with
    | .badFormat => .error .valueError
    | .otherError => .error .runtimeError
    | .ok doc => .ok (String.intercalate "\n" doc.paragraphs)

/-- doc_parser.extract_text_from_pdf: existence check, then extension check
on the lowercased path, then open; on success the per-page texts, skipping
falsy (empty) page texts, joined by single newlines. -/
def extract_text_from_pdf (fs : FileSystem) (file_path : String) :
    Except PyError String :=
  if !(fs.isFile file_path) then .error .fileNotFound
  else if !(pyEndsWith (pyLower file_path) ".pdf") then .error .valueError
  else
    match fs.pdfOpen file_path with
    | .badFormat => .error .valueError
    | .otherError => .error .runtimeError
    | .ok doc => .ok (String.intercalate "\n" (doc.pages.filter (fun t => t != "")))

/-- A chromadb collection.query reply: the value of its "documents" key when
that key is present (chromadb returns one list of document texts per query
text, so the value is a list of lists). -/
structure ChromaQueryReply where
  documents : Option (List (List String))
deriving DecidableEq

/-- Outcome of collection.query as seen by query_vector_store.py: a reply
dictionary, or an exception raised by the store. -/
inductive StoreQuery
  | ok (reply : ChromaQueryReply)
  | exc
deriving DecidableEq

/-- query_vector_store.query_appendix_b: run the store query inside a guard;
on a reply, evaluate result.get("documents", [])[0] — indexing an empty
list raises, and that raise is caught by the same guard, giving []; any
store exception also gives []. -/
def query_appendix_b (store : String → Nat → StoreQuery)
    (query_text : String) (n_results : Nat) : List String :=
  match store query_text n_results with
  | .exc => []
  | .ok reply =>
    match (reply.documents.getD []).head? with
    | some docs => docs
    | none => []

/-- Outcome of the front end's collection.query call in app.py: the value of
results["documents"] (absent key modelled by none), or an exception. -/
inductive RetrievalOutcome
  | ok (documents : Option (List (List String)))
  | exc
deriving DecidableEq

/-- app.py lines 47-58: the context string after the retrieval block. On an
exception the handler sets context = ""; a missing "documents" key or an
empty outer list raises inside the guarded block, which the same handler
turns into context = ""; otherwise context is the first snippet list joined
by blank lines. -/
def assembleContext : RetrievalOutcome → String
  | .exc => ""
  | .ok none => ""
  | .ok (some []) => ""
  | .ok (some (snippets :: _)) => String.intercalate "\n\n" snippets

/-- Outcome of the openai.ChatCompletion.create call in app.py: the content
of the first choice's message, or an exception. -/
inductive CompletionOutcome
  | ok (content : String)
  | exc
deriving DecidableEq

/-- app.py lines 62-67: the prompt string. The source concatenates an
f-string with two plain string literals, so the middle literal is the
verbatim text \x7bcontext\x7d — the retrieved context itself is not
interpolated; only the question is. -/
def buildPrompt (user_query : String) : String :=
  "You are an assistant that provides information based strictly on the provided context from an IRB Appendix B document.\n"
  ++ "Context:\n" ++ "{context}" ++ "\n\n"
  ++ "Question: " ++ user_query ++ "\n\n"
  ++ "Answer based ONLY on the above context. If the answer is not in the context, respond with \x27I don\x27t know based on the provided document.\x27"

/-- Observable result of the answer-generation block of app.py: the prompt it
sends, the answer string it ends with, and how many completion requests it
makes. -/
structure AnswerStep where
  prompt : String
  answer : String
  requests : Nat
deriving DecidableEq

/-- app.py lines 62-83: build the prompt, make one completion request (the
create call appears once, in no loop), and set answer to the first choice's
content stripped of surrounding whitespace, or to "" if the request raised.
The context argument is accepted but, per buildPrompt, never reaches the
prompt text. -/
def answer_generation (question context : String) (c : CompletionOutcome) :
    AnswerStep :=
  { prompt := buildPrompt question
    answer := match c with
      | .ok content => pyStrip content
      | .exc => ""
    requests := 1 }

/-- What one run of the app.py core logic (lines 45-90) did: how many store
queries and completion requests it made, whether it showed the
"No relevant context found for your query." warning, and what answer text
it displayed, if any. -/
structure FrontEndTrace where
  retrievalCalls : Nat
  completionCalls : Nat
  warnedNoContext : Bool
  displayedAnswer : Option String
deriving DecidableEq

/-- app.py lines 45-90: nothing happens on a falsy (empty) query; otherwise
retrieve and assemble the context; if the context is empty, warn and stop;
otherwise run the answer-generation block and display a non-empty answer. -/
def runFrontEnd (user_query : String) (r : RetrievalOutcome)
    (c : CompletionOutcome) : FrontEndTrace :=
  if user_query == "" then
    { retrievalCalls := 0, completionCalls := 0
      warnedNoContext := false, displayedAnswer := none }
  else
    let context := assembleContext r
    if context == "" then
      { retrievalCalls := 1, completionCalls := 0
        warnedNoContext := true, displayedAnswer := none }
    else
      let step := answer_generation user_query context c
      { retrievalCalls := 1, completionCalls := step.requests
        warnedNoContext := false
        displayedAnswer := if step.answer == "" then none else some step.answer }

/-- One stored entry of the chromadb collection: id, document text, and the
source-filename metadata, as written by populate_vector_store.py. -/
structure StoredEntry where
  id : String
  text : String
  source : String
deriving DecidableEq

/-- Modelled from the spec: the external vector store collaborator is "a
persistent, named collection supporting upsert(id, text, metadata)" whose
entries are independently addressable by id — writing an id that is already
present overwrites that entry in place, and writing a fresh id appends it.
The store implementation itself (chromadb) is outside this repository. -/
def upsertEntry (c : List StoredEntry) (e : StoredEntry) : List StoredEntry :=
  if c.any (fun x => x.id == e.id) then
    c.map (fun x => if x.id == e.id then e else x)
  else c ++ [e]

/-- Auxiliary scan for pathStem: index of the last dot in the list. -/
def lastDotIdxAux : List Char → Nat → Option Nat → Option Nat
  | [], _, acc => acc
  | ch :: rest, i, acc =>
    lastDotIdxAux rest (i + 1) (if ch == '.' then some i else acc)

/-- pathlib stem of a final path component: name[:i] when the last dot sits
at index i with 0 < i < len - 1, else the whole name. -/
def pathStem (name : String) : String :=
  let cs := name.toList
  match lastDotIdxAux cs 0 none with
  | none => name
  | some i =>
    if 0 < i && i + 1 < cs.length then String.mk (cs.take i) else name

/-- populate_vector_store.py line 89: the entry id derived from the filename
stem. -/
def doc_id (fileName : String) : String :=
  "appendix_b_" ++ pathStem fileName

/-- Result of Path(p).expanduser().resolve(strict=True): the resolved path
string handed to the extractor and the final path component
(pdf_file.name, which pdf_file.stem is computed from). -/
structure Resolved where
  path : String
  name : String
deriving DecidableEq

/-- The environment one run of the ingestion entry point sees: the path
resolution map, the filesystem for the extractor, and whether the
collection.add call raises. -/
structure IngestWorld where
  resolve : String → Option Resolved
  fs : FileSystem
  addFails : Bool

/-- Observable outcome of one run of the ingestion entry point: some k is a
sys.exit(k) call, none is a normal return; the collection afterwards; and
whether the no-text-extracted warning was printed. -/
structure IngestOutcome where
  exit : Option Nat
  collection : List StoredEntry
  warnedEmpty : Bool
deriving DecidableEq

/-- The process exit code an ingestion outcome yields: a normal return of
main lets the script finish, exiting with 0. -/
def processExitCode : Option Nat → Nat
  | none => 0
  | some k => k

namespace Populate

/-- populate_vector_store.main: resolve the path (exit 1 on failure), extract
the text (exit 1 on any extractor error), skip with a warning when the text
is falsy or strips to nothing, otherwise write one entry whose id comes
from the filename stem (exit 1 if the store write raises). -/
def main (w : IngestWorld) (c : List StoredEntry) (pdf_path : String) :
    IngestOutcome :=
  match w.resolve pdf_path with
  | none => { exit := some 1, collection := c, warnedEmpty := false }
  | some pdf_file =>
    match extract_text_from_pdf w.fs pdf_file.path with
    | .error _ => { exit := some 1, collection := c, warnedEmpty := false }
    | .ok text =>
      if text == "" || pyStrip text == "" then
        { exit := none, collection := c, warnedEmpty := true }
      else if w.addFails then
        { exit := some 1, collection := c, warnedEmpty := false }
      else
        { exit := none
          collection := upsertEntry c
            { id := doc_id pdf_file.name, text := text, source := pdf_file.name }
          warnedEmpty := false }

end Populate

/-- "result is original with surrounding whitespace trimmed": original splits
as whitespace ++ result ++ whitespace, and result neither starts nor ends
with whitespace. -/
def trimmedFrom (result original : String) : Prop :=
  ∃ pre post, original.toList = pre ++ result.toList ++ post ∧
    (∀ ch ∈ pre, isPySpace ch = true) ∧
    (∀ ch ∈ post, isPySpace ch = true) ∧
    (∀ ch, result.toList.head? = some ch → isPySpace ch = false) ∧
    (∀ ch, result.toList.getLast? = some ch → isPySpace ch = false)

/-- Test filesystem used by the concrete witnesses. -/
def fsTest : FileSystem :=
  { isFile := fun p =>
      p == "/docs/b.pdf" || p == "/docs/b.docx" ||
      p == "/docs/blank.pdf" || p == "/docs/notes.txt"
    docxOpen := fun p =>
      if p == "/docs/b.docx" then .ok { paragraphs := ["alpha", "beta"] }
      else .otherError
    pdfOpen := fun p =>
      if p == "/docs/b.pdf" then .ok { pages := ["hello", "", "world"] }
      else if p == "/docs/blank.pdf" then .ok { pages := ["  ", ""] }
      else .otherError }

/-- Test ingestion world used by the concrete witnesses. -/
def wTest : IngestWorld :=
  { resolve := fun p =>
      if p == "b.pdf" then some { path := "/docs/b.pdf", name := "b.pdf" }
      else if p == "blank.pdf" then
        some { path := "/docs/blank.pdf", name := "blank.pdf" }
      else none
    fs := fsTest
    addFails := false }

/-- Test store whose query reply lacks the "documents" key. -/
def storeNoDocs : String → Nat → StoreQuery :=
  fun _ _ => .ok { documents := none }

/- Helper lemmas. -/

theorem head_dropWhile_false {α : Type} (p : α → Bool) (l : List α) (x : α)
    (h : (l.dropWhile p).head? = some x) : p x = false := by
  induction l with
  | nil => simp at h
  | cons a u ih =>
    rw [List.dropWhile_cons] at h
    split at h
    · exact ih h
    · next hp =>
      simp only [List.head?_cons, Option.some.injEq] at h
      subst h
      simpa using hp

theorem pyStrip_trimmedFrom (s : String) : trimmedFrom (pyStrip s) s := by
  unfold trimmedFrom pyStrip
  set t := s.toList.dropWhile isPySpace with ht
  set u := t.reverse.dropWhile isPySpace with hu
  have h1 : s.toList.takeWhile isPySpace ++ t = s.toList :=
    List.takeWhile_append_dropWhile isPySpace s.toList
  have h2 : t.reverse.takeWhile isPySpace ++ u = t.reverse :=
    List.takeWhile_append_dropWhile isPySpace t.reverse
  have h3 : t = u.reverse ++ (t.reverse.takeWhile isPySpace).reverse := by
    have := congrArg List.reverse h2
    simpa [List.reverse_append] using this.symm
  refine ⟨s.toList.takeWhile isPySpace, (t.reverse.takeWhile isPySpace).reverse,
    ?_, ?_, ?_, ?_, ?_⟩
  · show s.toList = s.toList.takeWhile isPySpace ++ u.reverse ++ _
    rw [List.append_assoc, ← h3, h1]
  · intro ch hch
    exact List.mem_takeWhile_imp hch
  · intro ch hch
    rw [List.mem_reverse] at hch
    exact List.mem_takeWhile_imp hch
  · show ∀ ch, u.reverse.head? = some ch → isPySpace ch = false
    intro ch hch
    match hr : u.reverse with
    | [] => rw [hr] at hch; simp at hch
    | a :: r' =>
      rw [hr] at hch
      simp only [List.head?_cons, Option.some.injEq] at hch
      subst hch
      have hth : t.head? = some a := by
        rw [h3, hr]
        simp
      exact head_dropWhile_false isPySpace s.toList a (ht ▸ hth)
  · show ∀ ch, u.reverse.getLast? = some ch → isPySpace ch = false
    intro ch hch
    rw [List.getLast?_reverse] at hch
    exact head_dropWhile_false isPySpace t.reverse ch (hu ▸ hch)

theorem countP_replace (c : List StoredEntry) (e : StoredEntry) :
    (c.map (fun x => if x.id == e.id then e else x)).countP (fun x => x.id == e.id)
      = c.countP (fun x => x.id == e.id) := by
  induction c with
  | nil => rfl
  | cons a t ih =>
    simp only [List.map_cons, List.countP_cons]
    rw [ih]
    by_cases h : a.id = e.id
    · simp [h]
    · simp [h]

theorem countP_upsertEntry (c : List StoredEntry) (e : StoredEntry)
    (hc : c.countP (fun x => x.id == e.id) ≤ 1) :
    (upsertEntry c e).countP (fun x => x.id == e.id) = 1 := by
  unfold upsertEntry
  by_cases h : c.any (fun x => x.id == e.id)
  · rw [if_pos h, countP_replace]
    have hpos : 0 < c.countP (fun x => x.id == e.id) := by
      rw [List.countP_pos_iff]
      simpa [List.any_eq_true] using h
    omega
  · rw [if_neg h]
    have h0 : c.countP (fun x => x.id == e.id) = 0 := by
      rw [List.countP_eq_zero]
      intro a ha hpa
      exact h (List.any_eq_true.mpr ⟨a, ha, hpa⟩)
    rw [List.countP_append, h0]
    simp [List.countP_cons]

/- Claim theorems. -/

/-- C1: Ingesting the same file twice — running the ingestion entry point main
twice on the same path, with extraction yielding the same non-empty text —
leaves exactly one stored entry in the collection for that file: the entry id
is derived deterministically from the filename stem, so the second store
write overwrites the first, and the collection never holds two entries for
the same source file. -/
theorem ingest_twice_one_entry
    (w : IngestWorld) (c : List StoredEntry) (p : String) (f : Resolved)
    (text : String)
    (hres : w.resolve p = some f)
    (hext : extract_text_from_pdf w.fs f.path = .ok text)
    (hne : (text == "" || pyStrip text == "") = false)
    (hadd : w.addFails = false)
    (hc : c.countP (fun x => x.id == doc_id f.name) ≤ 1) :
    ((Populate.main w (Populate.main w c p).collection p).collection).countP
      (fun x => x.id == doc_id f.name) = 1 := by
  have hrun : ∀ c' : List StoredEntry, Populate.main w c' p =
      { exit := none
        collection := upsertEntry c'
          { id := doc_id f.name, text := text, source := f.name }
        warnedEmpty := false } := by
    intro c'
    simp [Populate.main, hres, hext, hne, hadd]
  rw [hrun, hrun]
  have h1 := countP_upsertEntry c
    { id := doc_id f.name, text := text, source := f.name } hc
  exact countP_upsertEntry _ _ (le_of_eq h1)

/-- C2: In every run of the front end in which the assembled context string is
empty (the retrieval step yielded no snippets or failed), the front end emits
the no-relevant-context warning and the completion collaborator is never
invoked. -/
theorem empty_context_warns_no_completion
    (q : String) (r : RetrievalOutcome) (c : CompletionOutcome)
    (hq : q ≠ "") (hctx : assembleContext r = "") :
    (runFrontEnd q r c).warnedNoContext = true ∧
    (runFrontEnd q r c).completionCalls = 0 := by
  have hq' : (q == "") = false := beq_eq_false_iff_ne.mpr hq
  simp [runFrontEnd, hq', hctx]

/-- C3: For every query string and result count, query_appendix_b either
returns the ranked list of matching text bodies (the first documents list of
the store's reply) or returns the empty list; any fault in the underlying
store query yields the empty list rather than an exception. -/
theorem query_ranked_or_empty
    (store : String → Nat → StoreQuery) (q : String) (n : Nat) :
    (∃ docs rest, store q n = .ok { documents := some (docs :: rest) } ∧
      query_appendix_b store q n = docs) ∨
    query_appendix_b store q n = [] := by
  match h : store q n with
  | .exc => exact Or.inr (by simp [query_appendix_b, h])
  | .ok reply =>
    match hd : reply.documents with
    | none => exact Or.inr (by simp [query_appendix_b, h, hd])
    | some [] => exact Or.inr (by simp [query_appendix_b, h, hd])
    | some (docs :: rest) =>
      refine Or.inl ⟨docs, rest, ?_, by simp [query_appendix_b, h, hd]⟩
      rw [← hd]

/-- C4: For every input file whose extraction yields an empty or
whitespace-only string, the ingestion entry point main stores zero entries,
prints the skip warning, and returns normally, so the process exits with
code 0. -/
theorem ingest_blank_skip
    (w : IngestWorld) (c : List StoredEntry) (p : String) (f : Resolved)
    (text : String)
    (hres : w.resolve p = some f)
    (hext : extract_text_from_pdf w.fs f.path = .ok text)
    (hblank : pyStrip text = "") :
    (Populate.main w c p).collection = c ∧
    (Populate.main w c p).warnedEmpty = true ∧
    processExitCode (Populate.main w c p).exit = 0 := by
  have hcond : (text == "" || pyStrip text == "") = true := by
    simp [hblank]
  simp [Populate.main, hres, hext, hcond, processExitCode]

/-- C5: For every path that the filesystem does not report as an existing
file, both extractors fail with FileNotFoundError; neither consults the
parsing library, so no file is opened or read and no string is returned. -/
theorem missing_file_not_found (fs : FileSystem) (path : String)
    (h : fs.isFile path = false) :
    extract_text_from_docx fs path = .error .fileNotFound ∧
    extract_text_from_pdf fs path = .error .fileNotFound := by
  constructor <;> simp [extract_text_from_docx, extract_text_from_pdf, h]

/-- C6: For every existing file whose (lowercased) path does not end with the
expected extension, the extractor fails with ValueError, for every possible
content of the file — the open outcome is universally quantified, so the
file's bytes are never parsed. -/
theorem wrong_extension_invalid_input (fs : FileSystem) (path : String)
    (hfile : fs.isFile path = true) :
    (pyEndsWith (pyLower path) ".docx" = false →
      extract_text_from_docx fs path = .error .valueError) ∧
    (pyEndsWith (pyLower path) ".pdf" = false →
      extract_text_from_pdf fs path = .error .valueError) := by
  constructor <;> intro h <;>
    simp [extract_text_from_docx, extract_text_from_pdf, hfile, h]

/-- C7: For every question and non-empty context, the answer-generation step
makes exactly one completion request; when the request fails it returns the
empty string, and when it succeeds it returns the completion text with
surrounding whitespace trimmed (the original content splits as whitespace ++
answer ++ whitespace, and the answer neither starts nor ends with
whitespace). -/
theorem answer_generation_trims_or_empty
    (question context : String) (c : CompletionOutcome) (hctx : context ≠ "") :
    (answer_generation question context c).requests = 1 ∧
    (c = .exc → (answer_generation question context c).answer = "") ∧
    (∀ content, c = .ok content →
      (answer_generation question context c).answer = pyStrip content ∧
      trimmedFrom (answer_generation question context c).answer content) := by
  refine ⟨rfl, ?_, ?_⟩
  · intro h
    subst h
    rfl
  · intro content h
    subst h
    exact ⟨rfl, pyStrip_trimmedFrom content⟩

/-- C8: On success, extract_text_from_docx returns exactly the document's
paragraph texts, in document order, joined by single newlines; and
extract_text_from_pdf returns exactly the per-page texts, in page order,
joined by single newlines, with pages whose extraction yields no text
contributing nothing. -/
theorem extract_success_joins
    (fs : FileSystem) (dpath ppath : String) (d : DocxDoc) (pd : PdfDoc)
    (hdf : fs.isFile dpath = true)
    (hde : pyEndsWith (pyLower dpath) ".docx" = true)
    (hdo : fs.docxOpen dpath = .ok d)
    (hpf : fs.isFile ppath = true)
    (hpe : pyEndsWith (pyLower ppath) ".pdf" = true)
    (hpo : fs.pdfOpen ppath = .ok pd) :
    extract_text_from_docx fs dpath
      = .ok (String.intercalate "\n" d.paragraphs) ∧
    extract_text_from_pdf fs ppath
      = .ok (String.intercalate "\n" (pd.pages.filter (fun t => t != ""))) := by
  constructor
  · simp [extract_text_from_docx, hdf, hde, hdo]
  · simp [extract_text_from_pdf, hpf, hpe, hpo]

/-- C9: The existence check runs before the extension check: for every path
that both does not exist and has the wrong extension, the failure is
FileNotFoundError, not ValueError, for both extractors. -/
theorem existence_before_extension (fs : FileSystem) (path : String)
    (hfile : fs.isFile path = false)
    (hdocx : pyEndsWith (pyLower path) ".docx" = false)
    (hpdf : pyEndsWith (pyLower path) ".pdf" = false) :
    (extract_text_from_docx fs path = .error .fileNotFound ∧
      extract_text_from_docx fs path ≠ .error .valueError) ∧
    (extract_text_from_pdf fs path = .error .fileNotFound ∧
      extract_text_from_pdf fs path ≠ .error .valueError) := by
  refine ⟨⟨?_, ?_⟩, ⟨?_, ?_⟩⟩ <;>
    simp [extract_text_from_docx, extract_text_from_pdf, hfile]

/-- C10: When the store's query reply lacks the "documents" field, the
default-then-index expression evaluates inside the guarded region, so
query_appendix_b still returns the empty list rather than raising. -/
theorem missing_documents_field_empty
    (store : String → Nat → StoreQuery) (q : String) (n : Nat)
    (h : store q n = .ok { documents := none }) :
    query_appendix_b store q n = [] := by
  simp [query_appendix_b, h]

/- Concrete witnesses. -/

/-- C1 witness: ingesting b.pdf twice into an empty collection leaves exactly
one entry with id appendix_b_b. -/
theorem ingest_twice_one_entry_witness :
    wTest.resolve "b.pdf" = some { path := "/docs/b.pdf", name := "b.pdf" } ∧
    extract_text_from_pdf wTest.fs "/docs/b.pdf" = .ok "hello\nworld" ∧
    ("hello\nworld" == "" || pyStrip "hello\nworld" == "") = false ∧
    wTest.addFails = false ∧
    ([] : List StoredEntry).countP (fun x => x.id == doc_id "b.pdf") ≤ 1 ∧
    ((Populate.main wTest (Populate.main wTest [] "b.pdf").collection
        "b.pdf").collection).countP (fun x => x.id == doc_id "b.pdf") = 1 :=
  ⟨rfl, rfl, rfl, rfl, by decide,
    ingest_twice_one_entry wTest [] "b.pdf"
      { path := "/docs/b.pdf", name := "b.pdf" } "hello\nworld"
      rfl rfl rfl rfl (by decide)⟩

/-- C2 witness: a failed retrieval assembles an empty context, which warns and
makes no completion call. -/
theorem empty_context_warns_no_completion_witness :
    ("what is minimal risk" ≠ "") ∧
    assembleContext .exc = "" ∧
    ((runFrontEnd "what is minimal risk" .exc (.ok "hi")).warnedNoContext = true ∧
     (runFrontEnd "what is minimal risk" .exc (.ok "hi")).completionCalls = 0) :=
  ⟨by decide, rfl,
    empty_context_warns_no_completion "what is minimal risk" .exc (.ok "hi")
      (by decide) rfl⟩

/-- C4 witness: blank.pdf extracts to whitespace only; main leaves the
collection empty, warns, and the process exit code is 0. -/
theorem ingest_blank_skip_witness :
    wTest.resolve "blank.pdf"
      = some { path := "/docs/blank.pdf", name := "blank.pdf" } ∧
    extract_text_from_pdf wTest.fs "/docs/blank.pdf" = .ok "  " ∧
    pyStrip "  " = "" ∧
    ((Populate.main wTest [] "blank.pdf").collection = ([] : List StoredEntry) ∧
     (Populate.main wTest [] "blank.pdf").warnedEmpty = true ∧
     processExitCode (Populate.main wTest [] "blank.pdf").exit = 0) :=
  ⟨rfl, rfl, rfl,
    ingest_blank_skip wTest [] "blank.pdf"
      { path := "/docs/blank.pdf", name := "blank.pdf" } "  " rfl rfl rfl⟩

/-- C5 witness: a path that names no file fails with FileNotFoundError under
both extractors. -/
theorem missing_file_not_found_witness :
    fsTest.isFile "/missing/x.docx" = false ∧
    (extract_text_from_docx fsTest "/missing/x.docx" = .error .fileNotFound ∧
     extract_text_from_pdf fsTest "/missing/x.docx" = .error .fileNotFound) :=
  ⟨rfl, missing_file_not_found fsTest "/missing/x.docx" rfl⟩

/-- C6 witness: notes.txt exists but has neither expected extension, so both
extractors fail with ValueError. -/
theorem wrong_extension_invalid_input_witness :
    fsTest.isFile "/docs/notes.txt" = true ∧
    pyEndsWith (pyLower "/docs/notes.txt") ".docx" = false ∧
    pyEndsWith (pyLower "/docs/notes.txt") ".pdf" = false ∧
    extract_text_from_docx fsTest "/docs/notes.txt" = .error .valueError ∧
    extract_text_from_pdf fsTest "/docs/notes.txt" = .error .valueError :=
  ⟨rfl, by decide, by decide,
    (wrong_extension_invalid_input fsTest "/docs/notes.txt" rfl).1 (by decide),
    (wrong_extension_invalid_input fsTest "/docs/notes.txt" rfl).2 (by decide)⟩

/-- C7 witness: with a non-empty context, a successful request returns the
trimmed completion text and one request is made; a failed request returns
the empty string. -/
theorem answer_generation_trims_or_empty_witness :
    ("Unrelated text." ≠ "") ∧
    ((answer_generation "Q" "Unrelated text." (.ok "  An answer.  ")).requests = 1 ∧
     ((.ok "  An answer.  " : CompletionOutcome) = .exc →
       (answer_generation "Q" "Unrelated text." (.ok "  An answer.  ")).answer = "") ∧
     (∀ content, (.ok "  An answer.  " : CompletionOutcome) = .ok content →
       (answer_generation "Q" "Unrelated text." (.ok "  An answer.  ")).answer
         = pyStrip content ∧
       trimmedFrom
         (answer_generation "Q" "Unrelated text." (.ok "  An answer.  ")).answer
         content)) :=
  ⟨by decide,
    answer_generation_trims_or_empty "Q" "Unrelated text."
      (.ok "  An answer.  ") (by decide)⟩

/-- C8 witness: b.docx yields its paragraphs joined by newlines; b.pdf yields
its non-empty page texts joined by newlines, the empty page contributing
nothing. -/
theorem extract_success_joins_witness :
    fsTest.isFile "/docs/b.docx" = true ∧
    pyEndsWith (pyLower "/docs/b.docx") ".docx" = true ∧
    fsTest.docxOpen "/docs/b.docx" = .ok { paragraphs := ["alpha", "beta"] } ∧
    fsTest.isFile "/docs/b.pdf" = true ∧
    pyEndsWith (pyLower "/docs/b.pdf") ".pdf" = true ∧
    fsTest.pdfOpen "/docs/b.pdf" = .ok { pages := ["hello", "", "world"] } ∧
    (extract_text_from_docx fsTest "/docs/b.docx"
       = .ok (String.intercalate "\n" ["alpha", "beta"]) ∧
     extract_text_from_pdf fsTest "/docs/b.pdf"
       = .ok (String.intercalate "\n"
           (["hello", "", "world"].filter (fun t => t != "")))) :=
  ⟨rfl, by decide, rfl, rfl, by decide, rfl,
    extract_success_joins fsTest "/docs/b.docx" "/docs/b.pdf"
      { paragraphs := ["alpha", "beta"] } { pages := ["hello", "", "world"] }
      rfl (by decide) rfl rfl (by decide) rfl⟩

/-- C9 witness: a nonexistent path with the wrong extension fails with
FileNotFoundError, not ValueError, under both extractors. -/
theorem existence_before_extension_witness :
    fsTest.isFile "/missing/notes.txt" = false ∧
    pyEndsWith (pyLower "/missing/notes.txt") ".docx" = false ∧
    pyEndsWith (pyLower "/missing/notes.txt") ".pdf" = false ∧
    ((extract_text_from_docx fsTest "/missing/notes.txt" = .error .fileNotFound ∧
      extract_text_from_docx fsTest "/missing/notes.txt" ≠ .error .valueError) ∧
     (extract_text_from_pdf fsTest "/missing/notes.txt" = .error .fileNotFound ∧
      extract_text_from_pdf fsTest "/missing/notes.txt" ≠ .error .valueError)) :=
  ⟨rfl, by decide, by decide,
    existence_before_extension fsTest "/missing/notes.txt" rfl (by decide)
      (by decide)⟩

/-- C10 witness: a reply without the "documents" field yields the empty
list. -/
theorem missing_documents_field_empty_witness :
    storeNoDocs "minimal risk" 3 = .ok { documents := none } ∧
    query_appendix_b storeNoDocs "minimal risk" 3 = [] :=
  ⟨rfl, missing_documents_field_empty storeNoDocs "minimal risk" 3 rfl⟩
